import Mathlib

/-!
Shallow embedding of the MRCL700 microscope controller
(`syndesi_drivers/microscopes/microqubic_mrcl700.py`): the background dispatch
loop with its two message grammars, the per-axis caches, update-flag table and
unmatched-message queue, the actuator facades' outgoing command formatting, and
the controller's synchronized multi-axis `move_absolute`.

Numbers are modelled as rationals.  Python `float(...)` / `int(...)` string
conversion is modelled on the character classes that the source's regular
expressions can actually hand to them (digits, `.` and `-`).
-/

set_option autoImplicit false

namespace Mrcl700

/-! ### Character classes of the source's regular expressions -/

/-- Class of `\w` (ASCII range, which is all the device emits). -/
def isWordChar (c : Char) : Bool := c.isAlphanum || c = '_'

/-- Class of `[0-9A-Za-z]`. -/
def isAlnum (c : Char) : Bool := c.isAlphanum

/-- Class of `[0-9\-.]` (third field of the status pattern). -/
def isNumDotDash (c : Char) : Bool := c.isDigit || c = '-' || c = '.'

/-- Class of `[0-9\-]` (fourth field of the status pattern). -/
def isNumDash (c : Char) : Bool := c.isDigit || c = '-'

/-- Class of `[0-9.]` (speed value field). -/
def isNumDot (c : Char) : Bool := c.isDigit || c = '.'

/-- Greedy run of a character class: `X+` followed by a delimiter not in the
class is deterministic, so a take/drop pair models it exactly. -/
def takeRun (p : Char → Bool) (cs : List Char) : List Char × List Char :=
  (cs.takeWhile p, cs.dropWhile p)

/-- Consume an expected literal prefix (the interpolated `{letter}:` part of
the facade reply patterns). -/
def stripPre : List Char → List Char → Option (List Char)
  | [], cs => some cs
  | _ :: _, [] => none
  | p :: ps, c :: cs => if c = p then stripPre ps cs else none

/-! ### Rational arithmetic on numerators and denominators

The ambient library seals `Rat.add`, `Rat.sub` and `Rat.mul` behind
irreducible definitions, which blocks definitional evaluation of concrete
instances.  The embedding therefore computes with `Rat.divInt`/`mkRat` on
numerators and denominators; `ratSub_eq`, `ratMul_eq` and `ratDiv_eq` prove
these are exactly subtraction, multiplication and division on `ℚ`. -/

def ratSub (a b : ℚ) : ℚ := mkRat (a.num * b.den - b.num * a.den) (a.den * b.den)

def ratMul (a b : ℚ) : ℚ := mkRat (a.num * b.num) (a.den * b.den)

def ratDiv (a b : ℚ) : ℚ := Rat.divInt (a.num * b.den) (a.den * b.num)

theorem ratSub_eq (a b : ℚ) : ratSub a b = a - b := (Rat.sub_def' a b).symm

theorem ratMul_eq (a b : ℚ) : ratMul a b = a * b :=
  ((Rat.mul_def a b).trans (Rat.normalize_eq_mkRat _)).symm

theorem ratDiv_eq (a b : ℚ) : ratDiv a b = a / b := (Rat.div_def' a b).symm

/-! ### Python numeric-string conversion

`float(s)` and `int(s)` on strings drawn from the classes above: an optional
sign, then digits with at most one dot (at least one digit overall) for
`float`, digits only for `int`.  Anything else raises `ValueError`. -/

def allDigits (cs : List Char) : Bool := cs.all Char.isDigit

def digitsToNat (cs : List Char) : ℕ :=
  cs.foldl (fun a c => 10 * a + (c.toNat - 48)) 0

def tenPow : ℕ → ℕ
  | 0 => 1
  | n + 1 => 10 * tenPow n

/-- Split a character list at the occurrences of `.`. -/
def splitDots : List Char → List (List Char)
  | [] => [[]]
  | c :: rest =>
      if c = '.' then [] :: splitDots rest
      else
        let r := splitDots rest
        (c :: r.headD []) :: r.tail

/-- Sign applied to the magnitude of a parsed numeric string. -/
def condNeg (neg : Bool) (n : ℕ) : ℤ :=
  if neg then -(Int.ofNat n) else Int.ofNat n

/-- `float(s)` for strings over digits, `.`, `-`: `none` models `ValueError`.
The value of `[-]ip.fp` is `±(ip·10^k + fp) / 10^k` where `k` is the number of
fractional digits — the exact rational value of the decimal string. -/
def pyFloat (s : String) : Option ℚ :=
  let (neg, body) :=
    match s.toList with
    | '-' :: rest => (true, rest)
    | '+' :: rest => (false, rest)
    | cs => (false, cs)
  match splitDots body with
  | [i] =>
      if i ≠ [] ∧ allDigits i then
        some (Rat.divInt (condNeg neg (digitsToNat i)) 1)
      else none
  | [i, f] =>
      if (i ≠ [] ∨ f ≠ []) ∧ allDigits i ∧ allDigits f then
        some (Rat.divInt
          (condNeg neg (digitsToNat i * tenPow f.length + digitsToNat f))
          (Int.ofNat (tenPow f.length)))
      else none
  | _ => none

/-- `int(s)` for strings over digits and `-`: `none` models `ValueError`. -/
def pyInt (s : String) : Option ℤ :=
  let (neg, body) :=
    match s.toList with
    | '-' :: rest => (true, rest)
    | '+' :: rest => (false, rest)
    | cs => (false, cs)
  if body ≠ [] ∧ allDigits body then some (condNeg neg (digitsToNat body))
  else none

/-! ### The two dispatch-loop grammars

`STATUS_PATTERN = '(\w+):([0-9A-Za-z]+),([0-9\-.]+),([0-9\-]+),([01])'`
applied with `re.match` (prefix match).  Every `+` group is followed by a
delimiter outside its class, so backtracking never changes the split and a
greedy take/expect chain is an exact model. -/

def statusMatch (s : String) : Option (String × String × String × String × Char) :=
  let (g1, r1) := takeRun isWordChar s.toList
  if g1 = [] then none else
  match r1 with
  | ':' :: r2 =>
    let (g2, r3) := takeRun isAlnum r2
    if g2 = [] then none else
    match r3 with
    | ',' :: r4 =>
      let (g3, r5) := takeRun isNumDotDash r4
      if g3 = [] then none else
      match r5 with
      | ',' :: r6 =>
        let (g4, r7) := takeRun isNumDash r6
        if g4 = [] then none else
        match r7 with
        | ',' :: c :: _ =>
            if c = '0' ∨ c = '1' then some (⟨g1⟩, ⟨g2⟩, ⟨g3⟩, ⟨g4⟩, c) else none
        | _ => none
      | _ => none
    | _ => none
  | _ => none

/-- `SPEED_PATTERN = '$(\w)1,([0-9.]+)'` applied with `re.match`.  The leading
`$` is not escaped, so the regex engine reads it as an end-of-input anchor;
anchored at position 0 it holds only for `""` or `"\n"`, after which `(\w)`
still has to consume a word character starting at position 0. -/
def speedMatch (s : String) : Option (String × String) :=
  if s = "" ∨ s = "\n" then
    match s.toList with
    | c :: '1' :: ',' :: rest =>
        if isWordChar c then
          let (g2, _) := takeRun isNumDot rest
          if g2 = [] then none else some (⟨[c]⟩, ⟨g2⟩)
        else none
    | _ => none
  else none

theorem speedMatch_eq_none (s : String) : speedMatch s = none := by
  unfold speedMatch
  split
  · next h =>
      rcases h with h | h <;> subst h <;> rfl
  · rfl

/-! ### Fixed-precision formatting

The facades build commands with f-strings using `{x:.0f}` and `{x:.3f}`.
We model the value as a rational: round to the requested precision (Python
rounds the underlying double; the tie-breaking mode is irrelevant to every
statement below) and print the sign, the integer digits, and — for `.3f` —
exactly three fractional digit characters. -/

/-- One decimal digit character (`n` is always `< 10` where used). -/
def decChar (n : ℕ) : Char :=
  if n = 0 then '0' else if n = 1 then '1' else if n = 2 then '2'
  else if n = 3 then '3' else if n = 4 then '4' else if n = 5 then '5'
  else if n = 6 then '6' else if n = 7 then '7' else if n = 8 then '8'
  else if n = 9 then '9' else '*'

/-- Decimal digits of `n`, most significant first (`fuel ≥ n` suffices). -/
def natDigitsAux : ℕ → ℕ → List Char
  | 0, _ => []
  | fuel + 1, n => if n = 0 then [] else natDigitsAux fuel (n / 10) ++ [decChar (n % 10)]

def natRepr (n : ℕ) : String :=
  if n = 0 then "0" else ⟨natDigitsAux n n⟩

/-- `⌊q · scale + 1/2⌋`, computed on the numerator and denominator: the
integer whose digits `{q:.kf}` prints when `scale = 10^k` (Python breaks
exact halves to even; no statement below depends on a tie). -/
def scaledRound (q : ℚ) (scale : ℤ) : ℤ :=
  Int.fdiv (2 * q.num * scale + (q.den : ℤ)) (2 * (q.den : ℤ))

/-- `{q:.0f}`: sign, then the integer digits, no decimal point. -/
def fmtF0 (q : ℚ) : String :=
  (if q.num < 0 then "-" else "") ++ natRepr (scaledRound q 1).natAbs

/-- Exactly three fractional digit characters for `{q:.3f}` (`n < 1000`). -/
def frac3 (n : ℕ) : List Char :=
  [decChar (n / 100 % 10), decChar (n / 10 % 10), decChar (n % 10)]

/-- `{q:.3f}`: sign, integer digits, `.`, exactly three fractional digits. -/
def fmtF3 (q : ℚ) : String :=
  let m := (scaledRound q 1000).natAbs
  (if q.num < 0 then "-" else "") ++ natRepr (m / 1000) ++ "." ++ ⟨frac3 (m % 1000)⟩

/-- Number of characters after the first `.` of a string. -/
def decimalsOf (s : String) : ℕ :=
  ((s.toList.dropWhile fun c => c ≠ '.').drop 1).length

/-- Whether a string contains a decimal point. -/
def hasDot (s : String) : Bool := s.toList.any fun c => c = '.'

/-! ### Dispatch-loop state

`MicroqubicMrcl700.__init__`: `self._positions = {}`,
`self._speeds = {k : 0 for k in self.ACTUATORS}`, one `threading.Event` per
axis and category in `self._updates`, and an unbounded `Queue` for unmatched
lines.  Dictionaries are modelled as functions, events as booleans. -/

/-- The seven configured actuator letters (keys of `ACTUATORS`). -/
def AXES : List String := ["A", "B", "C", "R", "X", "Y", "Z"]

/-- Python exceptions that the embedded code can raise. -/
inductive PyErr where
  | valueError
  | keyError
  | nameError
  | attributeError
  | zeroDivisionError
deriving DecidableEq

structure DState where
  positions : String → Option ℚ
  speeds : String → Option ℚ
  posFlags : String → Bool
  spdFlags : String → Bool
  queue : List String

/-- Dictionary update `d[k] = v`. -/
def upd (f : String → Option ℚ) (k : String) (v : ℚ) : String → Option ℚ :=
  fun x => if x = k then some v else f x

/-- `threading.Event.set()` for one axis entry. -/
def setFlag (f : String → Bool) (k : String) : String → Bool :=
  fun x => if x = k then true else f x

/-- Caches, flag table and queue right after `__init__` has built them. -/
def initState : DState where
  positions := fun _ => none
  speeds := fun k => if k ∈ AXES then some 0 else none
  posFlags := fun _ => false
  spdFlags := fun _ => false
  queue := []

/-- `parse_and_set(positions, speeds, data)`: try the status pattern, then the
speed pattern; on a status match convert the captured fields (`float` on group
3 and `int` on group 4 raise `ValueError` on malformed text, and they run
before the cache assignment) and write the position cache; on a speed match
write the speed cache; otherwise report `('', None)`.  The result carries the
two caches and the returned `(letter, is_status)` pair. -/
def parse_and_set (positions speeds : String → Option ℚ) (data : String) :
    Except PyErr ((String → Option ℚ) × (String → Option ℚ) × String × Option Bool) :=
  match statusMatch data with
  | some (letter, _id, g3, g4, _g5) =>
      match pyFloat g3 with
      | none => .error .valueError
      | some position =>
          match pyInt g4 with
          | none => .error .valueError
          | some _stepNumber =>
              .ok (upd positions letter position, speeds, letter, some true)
  | none =>
      match speedMatch data with
      | some (letter, g2) =>
          match pyFloat g2 with
          | none => .error .valueError
          | some speed => .ok (positions, upd speeds letter speed, letter, some false)
      | none => .ok (positions, speeds, "", none)

/-- One successful-read iteration of `read_thread`: run `parse_and_set`; if a
letter came back, look its event up in `updates['positions'|'speeds']` (a
`KeyError` for a letter outside the seven configured axes) and set it,
otherwise push the line on the unmatched-message queue.  The `try/except` of
the loop catches only the read timeout, so any exception here propagates and
kills the thread — reported as `some e`. -/
def readStep (st : DState) (line : String) : DState × Option PyErr :=
  match parse_and_set st.positions st.speeds line with
  | .error e => (st, some e)
  | .ok (pos, spd, letter, isStatus) =>
      if letter = "" then
        ({ st with positions := pos, speeds := spd, queue := st.queue ++ [line] }, none)
      else if letter ∈ AXES then
        match isStatus with
        | some true =>
            ({ st with positions := pos, speeds := spd, posFlags := setFlag st.posFlags letter }, none)
        | _ =>
            ({ st with positions := pos, speeds := spd, spdFlags := setFlag st.spdFlags letter }, none)
      else
        ({ st with positions := pos, speeds := spd }, some .keyError)

/-- The dispatch loop over a sequence of received lines: it keeps iterating
until an uncaught exception terminates the thread. -/
def runLoop (st : DState) : List String → DState × Option PyErr
  | [] => (st, none)
  | l :: ls =>
      match readStep st l with
      | (st1, none) => runLoop st1 ls
      | (st1, some e) => (st1, some e)

/-! ### Foreground effects

Observable actions a foreground facade call performs on the shared transport
and unmatched-message queue, in order.  `queueGet t` is `Queue.get` with the
given timeout; the source calls it with no arguments, i.e. timeout `none`. -/

inductive Eff where
  | write (s : String)
  | queueClear
  | queueGet (timeout : Option ℚ)
deriving DecidableEq

/-- Timeouts of the blocking queue reads of a trace, in order. -/
def getTimeouts (l : List Eff) : List (Option ℚ) :=
  l.filterMap fun e =>
    match e with
    | Eff.queueGet t => some t
    | _ => none

/-- Whether a trace contains a blocking queue read with no timeout. -/
def hasUntimedGet (l : List Eff) : Bool :=
  l.any fun e =>
    match e with
    | Eff.queueGet none => true
    | _ => false

/-! ### Actuator facades -/

/-- `free_move_at_speed` — both `LinearActuator` and `RotaryActuator` write
`f'$X1,{speed:.0f}'`: the axis letter is hard-coded as `X` instead of using
`self._letter`, so `letter` is ignored. -/
def freeMoveAtSpeedCmd (letter : String) (speed : ℚ) : String :=
  let _ := letter
  "$X1," ++ fmtF0 speed

/-- `move_absolute(speed, position)` command: `f'${letter}3,{speed:.0f},{position:.3f}'`
(identical f-string in both actuator classes). -/
def moveAbsCmd (letter : String) (speed position : ℚ) : String :=
  "$" ++ letter ++ "3," ++ fmtF0 speed ++ "," ++ fmtF3 position

/-- `RotaryActuator.status` reply pattern `f'{letter}:(\w+),([0-9.]+)'`
via `re.match` (prefix): the literal letter, `:`, an id token, `,`, the angle
field.  Both `+` groups are followed by delimiters outside their classes, so
the greedy split is deterministic. -/
def rotaryStatusPat (letter : String) (d : String) : Option (String × String) :=
  match stripPre (letter.toList ++ [':']) d.toList with
  | none => none
  | some cs =>
    let (g1, r1) := takeRun isWordChar cs
    if g1 = [] then none else
    match r1 with
    | ',' :: r2 =>
        let (g2, _) := takeRun isNumDot r2
        if g2 = [] then none else some (⟨g1⟩, ⟨g2⟩)
    | _ => none

/-- Effects of `RotaryActuator.status()`: drain the unmatched-message queue,
write the status query, then two bare `Queue.get()` calls (no timeout). -/
def rotaryStatusEffects (letter : String) : List Eff :=
  [Eff.queueClear, Eff.write ("$" ++ letter ++ "6"), Eff.queueGet none, Eff.queueGet none]

/-- `RotaryActuator.status()` given the two lines the queue reads return:
parse the second against the reply pattern, raising `ValueError` when it does
not match or when `float` rejects the angle field; return the angle. -/
def rotaryStatus (letter : String) (_response data : String) :
    List Eff × Except PyErr ℚ :=
  (rotaryStatusEffects letter,
    match rotaryStatusPat letter data with
    | none => .error .valueError
    | some (_, g2) =>
        match pyFloat g2 with
        | none => .error .valueError
        | some v => .ok v)

/-- `LinearActuator.status` reply pattern
`f'{letter}:(\w+),([0-9.]+),([0-9]+),([01])'` via `re.match`. -/
def linearStatusPat (letter : String) (d : String) :
    Option (String × String × String × Char) :=
  match stripPre (letter.toList ++ [':']) d.toList with
  | none => none
  | some cs =>
    let (g1, r1) := takeRun isWordChar cs
    if g1 = [] then none else
    match r1 with
    | ',' :: r2 =>
        let (g2, r3) := takeRun isNumDot r2
        if g2 = [] then none else
        match r3 with
        | ',' :: r4 =>
            let (g3, r5) := takeRun (fun c => c.isDigit) r4
            if g3 = [] then none else
            match r5 with
            | ',' :: c :: _ => if c = '0' ∨ c = '1' then some (⟨g1⟩, ⟨g2⟩, ⟨g3⟩, c) else none
            | _ => none
        | _ => none
    | _ => none

/-- `LinearActuator.status()`: writes the query, then evaluates
`_check_response(query, response)` — but the local `response` is never
assigned anywhere in the method, so the argument lookup raises `NameError`;
the later `re.match(pattern, data)` would likewise read the never-assigned
local `data`.  The dead remainder of the body is embedded after the two
lookups (each modelled as reading an `Option` that is always `none`). -/
def linearStatus (letter : String) : List Eff × Except PyErr (ℚ × ℤ × Bool) :=
  let query := "$" ++ letter ++ "6"
  let response : Option String := none
  let data : Option String := none
  (⟨[Eff.write query],
    match response with
    | none => .error .nameError
    | some _ =>
        match data with
        | none => .error .nameError
        | some d =>
            match linearStatusPat letter d with
            | none => .error .attributeError
            | some (_, g2, g3, g4) =>
                match pyFloat g2, pyInt g3 with
                | some pos, some steps => .ok (pos, steps, g4 = '1')
                | _, _ => .error .valueError⟩)

/-- `LinearActuator.get_position()` returns `self.status()[0]`. -/
def linearGetPosition (letter : String) : List Eff × Except PyErr ℚ :=
  ((linearStatus letter).1, (linearStatus letter).2.map fun t => t.1)

/-! ### Controller: synchronized multi-axis `move_absolute` -/

/-- `MAX_SPEEDS` (units/s at 100% speed), each entry the exact value of the
source's ratio: A `180/37`, B `180/35.5`, C `120/7.5`, R `180/1`, X and Y
`70/4.5`, Z `120/7.5`. -/
def maxSpeedOf (k : String) : ℚ :=
  if k = "A" then mkRat 180 37
  else if k = "B" then mkRat 360 71
  else if k = "C" then mkRat 1200 75
  else if k = "R" then mkRat 180 1
  else if k = "X" then mkRat 700 45
  else if k = "Y" then mkRat 700 45
  else if k = "Z" then mkRat 1200 75
  else 0

/-- Per-axis `(min, max)` limits passed to the facade constructors. -/
def limitsOf (k : String) : ℚ × ℚ :=
  if k = "A" ∨ k = "B" ∨ k = "R" then (-90, 90)
  else if k = "C" ∨ k = "Z" then (0, 120)
  else (0, 70)

/-- Axes constructed as `LinearActuator` (the others are `RotaryActuator`). -/
def isLinearAxis (k : String) : Bool := k ∈ ["C", "X", "Y", "Z"]

/-- The expression `(p - getattr(self, k).get_position()) / self.MAX_SPEEDS[k]`
of the controller's times comprehension (`ratSub`/`ratDiv` are `-` and `/` on
`ℚ`, see `ratSub_eq` and `ratDiv_eq`). -/
def timeFor (k : String) (target cur : ℚ) : ℚ :=
  ratDiv (ratSub target cur) (maxSpeedOf k)

/-- `timeFor` is the plain rational formula of the source. -/
theorem timeFor_eq (k : String) (target cur : ℚ) :
    timeFor k target cur = (target - cur) / maxSpeedOf k := by
  rw [timeFor, ratSub_eq, ratDiv_eq]

/-- `getattr(self, k).get_position()` as invoked by the controller.  For a
linear axis, `LinearActuator.status` writes the query and then fails with
`NameError` (see `linearStatus`).  For a rotary axis, `RotaryActuator.status`
performs its queue rendezvous and returns the parsed angle, abstracted here by
the environment `current` (the angle the device's reply carries). -/
def getPositionModel (k : String) (current : String → ℚ) :
    List Eff × Except PyErr ℚ :=
  if isLinearAxis k then ((linearStatus k).1, .error .nameError)
  else (rotaryStatusEffects k, .ok (current k))

/-- The times comprehension
`times = {k : (p - getattr(self, k).get_position()) / self.MAX_SPEEDS[k] for k, (p, _) in positions.items()}`:
per item, `getattr` (an `AttributeError` for an unknown name) and
`get_position()` run in request order; the first exception aborts the whole
call. -/
def phase1 (current : String → ℚ) :
    List (String × ℚ × ℚ) → List Eff × Except PyErr (List (String × ℚ))
  | [] => ([], .ok [])
  | (k, p, _) :: rest =>
      if k ∈ AXES then
        match getPositionModel k current with
        | (effs, .error e) => (effs, .error e)
        | (effs, .ok cur) =>
            match phase1 current rest with
            | (effs2, .error e) => (effs ++ effs2, .error e)
            | (effs2, .ok ts) => (effs ++ effs2, .ok ((k, timeFor k p cur) :: ts))
      else ([], .error .attributeError)

/-- The command loop `for k, (p, s) in positions.items(): ...`: per axis check
the limits (`ValueError` aborts, skipping every later axis), then write the
move command — at speed `s * times[k] / longest_time` when `sync` (a
`ZeroDivisionError` when `longest_time` is zero), at `s` otherwise. -/
def phase2 (times : List (String × ℚ)) (longest : ℚ) (sync : Bool) :
    List (String × ℚ × ℚ) → List Eff × Option PyErr
  | [] => ([], none)
  | (k, p, s) :: rest =>
      if (limitsOf k).1 ≤ p ∧ p ≤ (limitsOf k).2 then
        if sync then
          if longest = 0 then ([], some .zeroDivisionError)
          else
            match phase2 times longest sync rest with
            | (effs, e) =>
                (Eff.write (moveAbsCmd k (ratDiv (ratMul s ((times.lookup k).getD 0)) longest) p) :: effs, e)
        else
          match phase2 times longest sync rest with
          | (effs, e) => (Eff.write (moveAbsCmd k s p) :: effs, e)
      else ([], some .valueError)

/-- `MicroqubicMrcl700.move_absolute(positions, sync)`: compute the times
dictionary (querying every axis's current position first), take
`longest_time = max(times.values())` (`max` of an empty sequence is a
`ValueError`), then issue the per-axis commands.  Returns the transport/queue
effect trace and the exception that aborted the call, if any. -/
def controllerMoveAbsolute (req : List (String × ℚ × ℚ)) (current : String → ℚ)
    (sync : Bool) : List Eff × Option PyErr :=
  match phase1 current req with
  | (effs1, .error e) => (effs1, some e)
  | (effs1, .ok times) =>
      match times with
      | [] => (effs1, some .valueError)
      | t0 :: ts =>
          let longest := ts.foldl (fun acc kt => max acc kt.2) t0.2
          match phase2 times longest sync req with
          | (effs2, e2) => (effs1 ++ effs2, e2)

/-! ### Helper lemmas -/

theorem toList_append (a b : String) : (a ++ b).toList = a.toList ++ b.toList := rfl

theorem decChar_ne_dot (n : ℕ) : decChar n ≠ '.' := by
  unfold decChar
  split_ifs <;> decide

theorem natDigitsAux_ne_dot (fuel n : ℕ) : ∀ c ∈ natDigitsAux fuel n, c ≠ '.' := by
  induction fuel generalizing n with
  | zero => intro c hc; cases hc
  | succ f ih =>
      intro c hc
      unfold natDigitsAux at hc
      split at hc
      · cases hc
      · rcases List.mem_append.1 hc with h | h
        · exact ih _ c h
        · rw [List.mem_singleton] at h
          subst h
          exact decChar_ne_dot _

theorem natRepr_ne_dot (n : ℕ) : ∀ c ∈ (natRepr n).toList, c ≠ '.' := by
  unfold natRepr
  split
  · intro c hc
    rw [show ("0" : String).toList = ['0'] from rfl, List.mem_singleton] at hc
    subst hc; decide
  · exact natDigitsAux_ne_dot n n

theorem dropWhile_append_all {p : Char → Bool} {xs : List Char} (ys : List Char)
    (h : ∀ x ∈ xs, p x = true) :
    (xs ++ ys).dropWhile p = ys.dropWhile p := by
  induction xs with
  | nil => rfl
  | cons a as ih =>
      rw [List.cons_append, List.dropWhile_cons, h a (by simp)]
      exact ih fun x hx => h x (by simp [hx])

/-- `{q:.0f}` output never contains a decimal point. -/
theorem fmtF0_no_dot (q : ℚ) : hasDot (fmtF0 q) = false := by
  unfold hasDot fmtF0
  rw [toList_append, List.any_append, Bool.or_eq_false_iff]
  constructor
  · split_ifs <;> decide
  · rw [List.any_eq_false]
    intro c hc
    simpa using natRepr_ne_dot _ c hc

/-- `{q:.3f}` output has exactly three characters after its decimal point. -/
theorem fmtF3_three_decimals (q : ℚ) : decimalsOf (fmtF3 q) = 3 := by
  unfold decimalsOf fmtF3
  rw [show ∀ a b c d : String, a ++ b ++ c ++ d = a ++ (b ++ (c ++ d)) from by
      intros; rw [String.append_assoc, String.append_assoc],
    toList_append]
  rw [dropWhile_append_all _ ?side1]
  case side1 =>
    intro x hx
    split_ifs at hx
    · rw [show ("-" : String).toList = ['-'] from rfl, List.mem_singleton] at hx
      subst hx; decide
    · rw [show ("" : String).toList = [] from rfl] at hx
      cases hx
  rw [toList_append, dropWhile_append_all _ ?side2]
  case side2 =>
    intro x hx
    simpa using natRepr_ne_dot _ x hx
  rfl

/-- Inversion for `parse_and_set` on a line whose status pattern matched:
either both numeric conversions succeed and the position cache is updated for
the matched letter, or the call raises `ValueError`. -/
theorem parse_and_set_status (pos spd : String → Option ℚ)
    {data l i g3 g4 : String} {g5 : Char}
    (hm : statusMatch data = some (l, i, g3, g4, g5)) :
    (∃ v n, pyFloat g3 = some v ∧ pyInt g4 = some n ∧
        parse_and_set pos spd data = .ok (upd pos l v, spd, l, some true)) ∨
    parse_and_set pos spd data = .error PyErr.valueError := by
  unfold parse_and_set
  simp only [hm]
  rcases hf : pyFloat g3 with _ | v
  · right; rfl
  · rcases hi : pyInt g4 with _ | n
    · right; rfl
    · exact Or.inl ⟨v, n, rfl, rfl, rfl⟩

/-- A line matching neither pattern leaves both caches alone and reports
`('', None)` (the speed pattern never matches, see `speedMatch_eq_none`). -/
theorem parse_and_set_nomatch (pos spd : String → Option ℚ) {data : String}
    (hm : statusMatch data = none) :
    parse_and_set pos spd data = .ok (pos, spd, "", none) := by
  unfold parse_and_set
  simp only [hm, speedMatch_eq_none]

/-- The speed branch of `parse_and_set` being dead code, no dispatch-loop step
ever writes the speed cache. -/
theorem speeds_never_change (st : DState) (line k : String) :
    (readStep st line).1.speeds k = st.speeds k := by
  unfold readStep
  rcases hm : statusMatch line with _ | ⟨l, i, g3, g4, g5⟩
  · rw [parse_and_set_nomatch st.positions st.speeds hm]; rfl
  · rcases parse_and_set_status st.positions st.speeds hm with ⟨v, n, -, -, hok⟩ | herr
    · rw [hok]
      by_cases h1 : l = ""
      · simp only [if_pos h1]
      · simp only [if_neg h1]
        by_cases h2 : l ∈ AXES
        · simp only [if_pos h2]
        · simp only [if_neg h2]
    · rw [herr]

/-- A dispatch step triggered by a status line never touches the position
cache of any axis other than the matched one. -/
theorem readStep_frame (st : DState) (line : String) (l i g3 g4 : String)
    (g5 : Char) (a : String)
    (hm : statusMatch line = some (l, i, g3, g4, g5)) (ha : a ≠ l) :
    (readStep st line).1.positions a = st.positions a := by
  unfold readStep
  rcases parse_and_set_status st.positions st.speeds hm with ⟨v, n, -, -, hok⟩ | herr
  · rw [hok]
    have key : ∀ x : DState × Option PyErr,
        x.1.positions = upd st.positions l v → x.1.positions a = st.positions a := by
      intro x hx
      rw [hx]
      simp only [upd, if_neg ha]
    apply key
    by_cases h1 : l = ""
    · simp only [if_pos h1]
    · simp only [if_neg h1]
      by_cases h2 : l ∈ AXES
      · simp only [if_pos h2]
      · simp only [if_neg h2]
  · rw [herr]

/-! ### Claim theorems -/

/-- C1: the dispatch loop never classifies the line `$X1,45.0` (or any other
line) as a speed update — `SPEED_PATTERN`'s leading `$` is an unescaped
end-of-input anchor, so the pattern is unmatchable.  The line is pushed onto
the unmatched-message queue, the speed cache keeps its initial `0` for axis X,
the (X, speed) flag stays clear, and in fact no received line ever changes the
speed cache of any axis. -/
theorem speed_line_goes_to_queue :
    (readStep initState "$X1,45.0").1.queue = ["$X1,45.0"] ∧
    (readStep initState "$X1,45.0").1.speeds "X" = some 0 ∧
    (readStep initState "$X1,45.0").1.spdFlags "X" = false ∧
    (readStep initState "$X1,45.0").2 = none ∧
    (∀ s : String, speedMatch s = none) ∧
    ∀ (st : DState) (line k : String), (readStep st line).1.speeds k = st.speeds k :=
  ⟨rfl, rfl, rfl, rfl, speedMatch_eq_none, speeds_never_change⟩

/-- C2 (counterexample): on the line `X:ID1,1.2.3,340,1` the status pattern
matches structurally but `float('1.2.3')` raises; the resulting `ValueError`
is not caught by the dispatch loop — the step reports a propagating exception
and the loop stops dead: a following unmatched line is never enqueued. -/
theorem malformed_numeric_not_caught :
    (readStep initState "X:ID1,1.2.3,340,1").2 = some PyErr.valueError ∧
    (runLoop initState ["X:ID1,1.2.3,340,1", "rest of traffic"]).1.queue = [] ∧
    (runLoop initState ["X:ID1,1.2.3,340,1", "rest of traffic"]).2 = some PyErr.valueError :=
  ⟨rfl, rfl, rfl⟩

/-- C2 (amended): a line whose status pattern matches structurally but whose
position field `float` rejects makes the dispatch loop raise an uncaught
`ValueError` that terminates the loop thread; the state (caches, flags,
queue) is left exactly as it was, so nothing is misattributed — but the loop
does not continue. -/
theorem malformed_numeric_kills_loop (st : DState) (line : String)
    (l i g3 g4 : String) (g5 : Char)
    (hm : statusMatch line = some (l, i, g3, g4, g5))
    (hf : pyFloat g3 = none) :
    readStep st line = (st, some PyErr.valueError) := by
  unfold readStep parse_and_set
  simp only [hm, hf]

/-- C2 (witness): the amended claim at the concrete malformed line. -/
theorem malformed_numeric_kills_loop_w :
    readStep initState "X:ID1,1.2.3,340,1" = (initState, some PyErr.valueError) :=
  malformed_numeric_kills_loop initState "X:ID1,1.2.3,340,1" "X" "ID1" "1.2.3" "340" '1' rfl rfl

/-- C3 (counterexample): `RotaryActuator.status()` performs a blocking
queue read with no timeout (`Queue.get()` with no arguments). -/
theorem rotary_status_untimed_get :
    hasUntimedGet (rotaryStatus "A" "" "").1 = true := rfl

/-- C3 (amended): both blocking queue reads of `RotaryActuator.status()` are
bare `Queue.get()` calls — no timeout at all, so the call can block forever
when no reply arrives (rather than raising a timeout error). -/
theorem rotary_status_gets_have_no_timeout (letter r d : String) :
    getTimeouts (rotaryStatus letter r d).1 = [none, none] := rfl

/-- C4 (counterexample): `move_absolute({'A': (200, 50)})` with target 200
outside A's limits (-90, 90) does raise the out-of-limits `ValueError`, but
only after the position-query command `$A6` was already written to the
transport (the times comprehension queries every axis before any check). -/
theorem oob_move_writes_query_first :
    (controllerMoveAbsolute [("A", 200, 50)] (fun _ => 0) false).2 = some PyErr.valueError ∧
    Eff.write "$A6" ∈ (controllerMoveAbsolute [("A", 200, 50)] (fun _ => 0) false).1 :=
  ⟨rfl,
    show Eff.write "$A6" ∈
        [Eff.queueClear, Eff.write "$A6", Eff.queueGet none, Eff.queueGet none] from
      List.Mem.tail _ (List.Mem.head _)⟩

/-- C4 (amended): for a single-axis request on a rotary axis (on a linear
axis `get_position` dies with `NameError` before any check) with an
out-of-limits target, the out-of-limits `ValueError` is raised and no motion
command is written — but the position-query rendezvous (queue drain, `$<k>6`
write, two blocking reads) has already reached the transport. -/
theorem oob_single_rotary_aborts_after_query (k : String) (p s : ℚ)
    (current : String → ℚ) (sync : Bool)
    (hk : k = "A" ∨ k = "B" ∨ k = "R")
    (hp : ¬ ((limitsOf k).1 ≤ p ∧ p ≤ (limitsOf k).2)) :
    controllerMoveAbsolute [(k, p, s)] current sync =
      (rotaryStatusEffects k, some PyErr.valueError) := by
  rcases hk with rfl | rfl | rfl <;>
    simp [controllerMoveAbsolute, phase1, phase2, getPositionModel, isLinearAxis, AXES, hp]

/-- C4 (witness): the amended claim at axis A, target 200, speed 50. -/
theorem oob_single_rotary_aborts_after_query_w :
    controllerMoveAbsolute [("A", 200, 50)] (fun _ => 0) false =
      (rotaryStatusEffects "A", some PyErr.valueError) :=
  oob_single_rotary_aborts_after_query "A" 200 50 (fun _ => 0) false (Or.inl rfl)
    (by norm_num [limitsOf])

/-- C5 (counterexample): the per-axis time the controller computes is the
signed difference divided by the maximum speed, not the absolute value the
claim states: for axis A moving from 10 to 0 the computed time is negative
and differs from `|target - current| / max_speed`. -/
theorem time_formula_not_absolute :
    timeFor "A" 0 10 = mkRat (-37) 18 ∧
    timeFor "A" 0 10 ≠ |(0 : ℚ) - 10| / maxSpeedOf "A" := by
  constructor
  · rfl
  · rw [show timeFor "A" 0 10 = mkRat (-37) 18 from rfl,
      show |(0 : ℚ) - 10| = 10 by norm_num,
      show maxSpeedOf "A" = mkRat 180 37 from rfl,
      show (mkRat 180 37 : ℚ) = 180 / 37 by
        rw [Rat.mkRat_eq_divInt, Rat.divInt_eq_div]; norm_num,
      show (mkRat (-37) 18 : ℚ) = -37 / 18 by
        rw [Rat.mkRat_eq_divInt, Rat.divInt_eq_div]; norm_num]
    norm_num

/-- C5 (amended): `time_for_axis = (target - current) / max_speed[axis]`
(signed, no absolute value), `longest_time` is the maximum of those signed
times, and with `sync=True` each commanded speed is
`speed_factor * time_for_axis / longest_time` — shown for a two-axis rotary
request with in-limit targets and nonzero `longest_time`. -/
theorem sync_speeds_signed_times (p1 p2 s1 s2 : ℚ) (current : String → ℚ)
    (h1 : (limitsOf "A").1 ≤ p1 ∧ p1 ≤ (limitsOf "A").2)
    (h2 : (limitsOf "B").1 ≤ p2 ∧ p2 ≤ (limitsOf "B").2)
    (hL : max (timeFor "A" p1 (current "A")) (timeFor "B" p2 (current "B")) ≠ 0) :
    controllerMoveAbsolute [("A", p1, s1), ("B", p2, s2)] current true =
      (rotaryStatusEffects "A" ++ rotaryStatusEffects "B" ++
        [Eff.write (moveAbsCmd "A"
            (s1 * timeFor "A" p1 (current "A") /
              max (timeFor "A" p1 (current "A")) (timeFor "B" p2 (current "B"))) p1),
         Eff.write (moveAbsCmd "B"
            (s2 * timeFor "B" p2 (current "B") /
              max (timeFor "A" p1 (current "A")) (timeFor "B" p2 (current "B"))) p2)],
       none) := by
  simp [controllerMoveAbsolute, phase1, phase2, getPositionModel, isLinearAxis, AXES,
    h1, h2, hL, List.lookup, ratDiv_eq, ratMul_eq]

/-- C5 (witness): the amended claim at A: 0 → 10, B: 0 → 20, both at factor
50; the computed commands are `$A3,26,10.000` and `$B3,50,20.000`. -/
theorem sync_speeds_signed_times_w :
    controllerMoveAbsolute [("A", 10, 50), ("B", 20, 50)] (fun _ => 0) true =
      (rotaryStatusEffects "A" ++ rotaryStatusEffects "B" ++
        [Eff.write (moveAbsCmd "A"
            (50 * timeFor "A" 10 0 / max (timeFor "A" 10 0) (timeFor "B" 20 0)) 10),
         Eff.write (moveAbsCmd "B"
            (50 * timeFor "B" 20 0 / max (timeFor "A" 10 0) (timeFor "B" 20 0)) 20)],
       none) :=
  sync_speeds_signed_times 10 20 50 50 (fun _ => 0)
    (by norm_num [limitsOf]) (by norm_num [limitsOf])
    (by rw [show max (timeFor "A" 10 ((fun _ => (0 : ℚ)) "A"))
          (timeFor "B" 20 ((fun _ => (0 : ℚ)) "B")) = mkRat 71 18 from rfl]
        intro h
        exact absurd (congrArg Rat.num h) (by decide))

/-- C6: `free_move_at_speed` writes a command addressed to axis X no matter
which axis the facade was constructed for — the f-string hard-codes `$X1`
instead of using `self._letter`.  The facade for axis C at speed 50 writes
`$X1,50`, and the command is independent of the facade's letter. -/
theorem free_move_hardcodes_X :
    freeMoveAtSpeedCmd "C" 50 = "$X1,50" ∧
    ∀ (l1 l2 : String) (s : ℚ), freeMoveAtSpeedCmd l1 s = freeMoveAtSpeedCmd l2 s :=
  ⟨rfl, fun _ _ _ => rfl⟩

/-- C7: `LinearActuator.status()` writes its query and then fails with
`NameError` on the never-assigned local `response` for every axis letter, so
neither it nor `get_position()` (which takes component 0 of its result) ever
returns a value. -/
theorem linear_status_raises_name_error (letter : String) :
    (linearStatus letter).1 = [Eff.write ("$" ++ letter ++ "6")] ∧
    (linearStatus letter).2 = Except.error PyErr.nameError ∧
    (linearGetPosition letter).2 = Except.error PyErr.nameError :=
  ⟨rfl, rfl, rfl⟩

/-- C8: on `X:ID1,12.500,340,1` the dispatch step sets the position cache of
axis X to 12.5, sets the (X, position) flag, pushes nothing onto the
unmatched-message queue and raises nothing; and for every status-matching
line, axes other than the matched one keep their cache entries. -/
theorem status_line_updates_named_axis_only :
    (readStep initState "X:ID1,12.500,340,1").1.positions "X" = some 12.5 ∧
    (readStep initState "X:ID1,12.500,340,1").1.posFlags "X" = true ∧
    (readStep initState "X:ID1,12.500,340,1").1.queue = [] ∧
    (readStep initState "X:ID1,12.500,340,1").2 = none ∧
    ∀ (st : DState) (line : String) (l i g3 g4 : String) (g5 : Char) (a : String),
      statusMatch line = some (l, i, g3, g4, g5) → a ≠ l →
      (readStep st line).1.positions a = st.positions a := by
  refine ⟨?_, rfl, rfl, rfl, readStep_frame⟩
  rw [show (12.5 : ℚ) = mkRat 25 2 by
    rw [Rat.mkRat_eq_divInt, Rat.divInt_eq_div]; norm_num]
  exact rfl

/-- C8 (witness): the frame part at the scenario line, axis Y. -/
theorem status_line_updates_named_axis_only_w :
    (readStep initState "X:ID1,12.500,340,1").1.positions "Y" = initState.positions "Y" :=
  status_line_updates_named_axis_only.2.2.2.2 initState "X:ID1,12.500,340,1"
    "X" "ID1" "12.500" "340" '1' "Y" rfl (by decide)

/-- C9: the absolute-move command for axis C at speed 37.0 and position
45.125 serializes exactly as `$C3,37,45.125`; for every speed and position
value the speed token has no decimal point and the position token has exactly
three digits after the decimal point. -/
theorem move_cmd_fixed_precision :
    moveAbsCmd "C" 37 45.125 = "$C3,37,45.125" ∧
    (∀ s : ℚ, hasDot (fmtF0 s) = false) ∧
    (∀ p : ℚ, decimalsOf (fmtF3 p) = 3) := by
  refine ⟨?_, fmtF0_no_dot, fmtF3_three_decimals⟩
  rw [show (45.125 : ℚ) = mkRat 361 8 by
    rw [Rat.mkRat_eq_divInt, Rat.divInt_eq_div]; norm_num]
  exact rfl

/-- C10: a status line for an axis outside the seven configured letters (the
single-letter `Q:ID,1.0,2,1` here, the multi-letter `QQ:ID2,3.5,7,0` in the
witness) writes the position cache for that unknown axis, then the lookup of
its update event raises an uncaught `KeyError` that terminates the dispatch
loop (a following line is never processed); generally, any status-matching
line with convertible fields and a letter outside the configured set mutates
the cache and kills the loop with `KeyError`. -/
theorem unknown_axis_key_error :
    (readStep initState "Q:ID,1.0,2,1").2 = some PyErr.keyError ∧
    (readStep initState "Q:ID,1.0,2,1").1.positions "Q" = some 1 ∧
    (runLoop initState ["Q:ID,1.0,2,1", "X:ID1,12.500,340,1"]).2 = some PyErr.keyError ∧
    (runLoop initState ["Q:ID,1.0,2,1", "X:ID1,12.500,340,1"]).1.posFlags "X" = false ∧
    ∀ (st : DState) (line : String) (l i g3 g4 : String) (g5 : Char) (v : ℚ) (n : ℤ),
      statusMatch line = some (l, i, g3, g4, g5) →
      pyFloat g3 = some v → pyInt g4 = some n → l ≠ "" → l ∉ AXES →
      readStep st line = ({ st with positions := upd st.positions l v }, some PyErr.keyError) := by
  refine ⟨rfl, rfl, rfl, rfl, ?_⟩
  intro st line l i g3 g4 g5 v n hm hf hi hne hax
  unfold readStep parse_and_set
  simp only [hm, hf, hi, if_neg hne, if_neg hax]

/-- C10 (witness): the general part at the multi-letter axis field `QQ`. -/
theorem unknown_axis_key_error_w :
    readStep initState "QQ:ID2,3.5,7,0" =
      ({ initState with positions := upd initState.positions "QQ" (mkRat 7 2) },
        some PyErr.keyError) :=
  unknown_axis_key_error.2.2.2.2 initState "QQ:ID2,3.5,7,0" "QQ" "ID2" "3.5" "7" '0'
    (mkRat 7 2) 7 rfl rfl rfl (by decide) (by decide)

end Mrcl700
